import Mathlib

/-!
Verification of the SELinux port reconciler module (`system/seport.py`).

The module's decision logic is embedded shallowly:
* `pySplitOnce` models Python's `str.split(sep, 1)` (split on the first
  occurrence, at most one split).
* `pyInt` models Python's `int(...)` on a string: optional sign followed by
  decimal digits, `none` standing for a raised `ValueError`.
* `parsePorts` is the parsing prefix of `semanage_port_exists`
  (lines 99-103 of the source): split, duplicate a lone component, map `int`.
* `semanage_port_exists` is the full existence check: the parsed
  `(low, high, proto)` record tested for membership in `seport.get_all()`.
* The external `seobject.portRecords` store is not part of the repository;
  its behaviour (`storeAdd`, `storeDel`) is modelled from the spec.
* `semanage_port_add_race` / `semanage_port_del_race` embed
  `semanage_port_add` / `semanage_port_del`, with two store snapshots so the
  store observed by `get_all` may differ from the one the mutation hits
  (the race window the spec discusses); the plain functions instantiate both
  snapshots to the same store.  An `Except.error` outcome stands for
  `module.fail_json`; the `calls` field records the store operations issued.
* `Seport.main` embeds `main` (lines 231-250): dispatch on `state` and the
  echoing of `port`/`proto`/`setype`/`state` into the result.
-/

deriving instance DecidableEq for Except

namespace Seport

/-- A record of `seport.get_all()`: `(low port, high port, protocol)`. -/
structure PortRecord where
  low : Int
  high : Int
  proto : String
deriving DecidableEq, Repr

/-- An operation issued to the external `seobject.portRecords` store. -/
inductive StoreCall where
  | getAll : StoreCall
  | setReload (b : Bool) : StoreCall
  | add (port proto serange setype : String) : StoreCall
  | delete (port proto : String) : StoreCall
deriving DecidableEq, Repr

/-- Is the call a mutating one (`add` or `delete`)? -/
def isMutation : StoreCall → Bool
  | StoreCall.add _ _ _ _ => true
  | StoreCall.delete _ _ => true
  | _ => false

/-- Python `s.split(sep, 1)` on the character list, with the accumulator
holding the (reversed) characters seen before the first separator. -/
def splitOnceAux (sep : Char) : List Char → List Char → List String
  | [], acc => [String.mk acc.reverse]
  | c :: cs, acc =>
    if c = sep then [String.mk acc.reverse, String.mk cs]
    else splitOnceAux sep cs (c :: acc)

/-- Python `s.split(sep, 1)`: at most one split, on the first occurrence. -/
def pySplitOnce (s : String) (sep : Char) : List String :=
  splitOnceAux sep s.data []

/-- A non-empty all-digit character list. -/
def isDigits (l : List Char) : Bool :=
  !l.isEmpty && l.all (fun c => c.isDigit)

/-- Decimal value of a digit list. -/
def digitsToNat (l : List Char) : Nat :=
  l.foldl (fun n c => 10 * n + (c.toNat - ('0').toNat)) 0

/-- Python `int(s)`: optional sign then decimal digits; `none` models the
`ValueError` raised on any other shape. -/
def pyInt (s : String) : Option Int :=
  match s.data with
  | '-' :: rest => if isDigits rest then some (-(digitsToNat rest : Int)) else none
  | '+' :: rest => if isDigits rest then some ((digitsToNat rest : Int)) else none
  | l => if isDigits l then some ((digitsToNat l : Int)) else none

/-- Lines 99-103 of `semanage_port_exists`:
`ports = port.split('-', 1); if len(ports) == 1: ports.extend(ports);
ports = map(int, ports); record = (ports[0], ports[1], proto)`.
`none` models a `ValueError` from `int`. -/
def parsePorts (port : String) : Option (Int × Int) :=
  let ports := pySplitOnce port '-'
  let ports := if ports.length = 1 then ports ++ ports else ports
  match ports with
  | [a, b] =>
    match pyInt a, pyInt b with
    | some x, some y => some (x, y)
    | _, _ => none
  | _ => none

/-- `semanage_port_exists` (source lines 84-104): parse the port spec and
test the record for membership in the store's full listing.  `none` models
the `ValueError` raised by `int` on a malformed component. -/
def semanage_port_exists (get_all : List PortRecord) (port proto : String) :
    Option Bool :=
  match parsePorts port with
  | none => none
  | some (lo, hi) => some (decide (PortRecord.mk lo hi proto ∈ get_all))

/-- Modelled from the spec: the external store's `add` primitive
(`seobject.portRecords.add`, not part of this repository).  Per §6/§4.4 it
validates the range itself ("malformed input rejected late by the store")
and fails with a message matched for "already defined" when the exact
record is present; otherwise it inserts the record. -/
def storeAdd (store : List PortRecord) (port proto _serange _setype : String) :
    Except String (List PortRecord) :=
  match parsePorts port with
  | none => Except.error "ValueError: invalid port"
  | some (lo, hi) =>
    if ¬ (1 ≤ lo ∧ lo ≤ hi ∧ hi ≤ 65535) then
      Except.error "ValueError: invalid port range"
    else if PortRecord.mk lo hi proto ∈ store then
      Except.error "ValueError: port already defined"
    else Except.ok (store ++ [PortRecord.mk lo hi proto])

/-- Modelled from the spec: the external store's `delete` primitive
(`seobject.portRecords.delete`, not part of this repository).  Per §6 it
fails with a message matched for "not defined" when the record is absent;
otherwise it removes the record. -/
def storeDel (store : List PortRecord) (port proto : String) :
    Except String (List PortRecord) :=
  match parsePorts port with
  | none => Except.error "ValueError: invalid port"
  | some (lo, hi) =>
    if PortRecord.mk lo hi proto ∈ store then
      Except.ok (store.filter (fun r => decide ¬ (r = PortRecord.mk lo hi proto)))
    else Except.error "ValueError: port not defined"

/-- Outcome of one `semanage_port_add`/`semanage_port_del` call:
the returned `change` (or the `fail_json` message), the store state
afterwards, and the trace of store operations issued. -/
structure SeportResult where
  outcome : Except String Bool
  store : List PortRecord
  calls : List StoreCall
deriving DecidableEq, Repr

/-- `semanage_port_add` (source lines 107-152), generalised with two store
snapshots: `storeCheck` is what `get_all` observes, `storeWrite` is what the
mutation hits (they differ only when another actor races this process).
`change = not semanage_port_exists(...)`; the mutation runs only under
`change and not module.check_mode`; any `ValueError` (from `int` or from the
store) reaches `module.fail_json`, modelled as `Except.error`. -/
def semanage_port_add_race (check_mode : Bool) (storeCheck storeWrite : List PortRecord)
    (port proto setype : String) (do_reload : Bool) : SeportResult :=
  match semanage_port_exists storeCheck port proto with
  | none => ⟨Except.error "ValueError: invalid port", storeWrite, []⟩
  | some ex =>
    let change := !ex
    if change && !check_mode then
      match storeAdd storeWrite port proto "s0" setype with
      | Except.error m =>
        ⟨Except.error m, storeWrite,
          [StoreCall.getAll, StoreCall.setReload do_reload,
            StoreCall.add port proto "s0" setype]⟩
      | Except.ok store2 =>
        ⟨Except.ok change, store2,
          [StoreCall.getAll, StoreCall.setReload do_reload,
            StoreCall.add port proto "s0" setype]⟩
    else ⟨Except.ok change, storeWrite, [StoreCall.getAll]⟩

/-- `semanage_port_add` with a quiescent store (no interference between the
read and the write). -/
def semanage_port_add (check_mode : Bool) (store : List PortRecord)
    (port proto setype : String) (do_reload : Bool) : SeportResult :=
  semanage_port_add_race check_mode store store port proto setype do_reload

/-- `semanage_port_del` (source lines 155-194), generalised like
`semanage_port_add_race`.  Note the source computes
`change = not semanage_port_exists(...)` here as well, and deletes only
under `change and not module.check_mode`. -/
def semanage_port_del_race (check_mode : Bool) (storeCheck storeWrite : List PortRecord)
    (port proto : String) (do_reload : Bool) : SeportResult :=
  match semanage_port_exists storeCheck port proto with
  | none => ⟨Except.error "ValueError: invalid port", storeWrite, []⟩
  | some ex =>
    let change := !ex
    if change && !check_mode then
      match storeDel storeWrite port proto with
      | Except.error m =>
        ⟨Except.error m, storeWrite,
          [StoreCall.getAll, StoreCall.setReload do_reload,
            StoreCall.delete port proto]⟩
      | Except.ok store2 =>
        ⟨Except.ok change, store2,
          [StoreCall.getAll, StoreCall.setReload do_reload,
            StoreCall.delete port proto]⟩
    else ⟨Except.ok change, storeWrite, [StoreCall.getAll]⟩

/-- `semanage_port_del` with a quiescent store. -/
def semanage_port_del (check_mode : Bool) (store : List PortRecord)
    (port proto : String) (do_reload : Bool) : SeportResult :=
  semanage_port_del_race check_mode store store port proto do_reload

/-- The dictionary passed to `module.exit_json` in `main`:
the echoed parameters plus the `changed` flag. -/
structure ModuleResult where
  port : String
  proto : String
  setype : String
  state : String
  changed : Bool
deriving DecidableEq, Repr

/-- Outcome of a whole module run: `exit_json` payload or `fail_json`
message, final store state, and the trace of store operations. -/
structure MainResult where
  outcome : Except String ModuleResult
  store : List PortRecord
  calls : List StoreCall
deriving DecidableEq, Repr

/-- `main` (source lines 197-250) after the environment gates: build the
result dict echoing `port`/`proto`/`setype`/`state`, dispatch on `state`
to `semanage_port_add`/`semanage_port_del`, and `exit_json` the result. -/
def main (check_mode : Bool) (store : List PortRecord)
    (port proto setype state : String) (do_reload : Bool) : MainResult :=
  if state = "present" then
    let r := semanage_port_add check_mode store port proto setype do_reload
    match r.outcome with
    | Except.ok c => ⟨Except.ok ⟨port, proto, setype, state, c⟩, r.store, r.calls⟩
    | Except.error m => ⟨Except.error m, r.store, r.calls⟩
  else if state = "absent" then
    let r := semanage_port_del check_mode store port proto do_reload
    match r.outcome with
    | Except.ok c => ⟨Except.ok ⟨port, proto, setype, state, c⟩, r.store, r.calls⟩
    | Except.error m => ⟨Except.error m, r.store, r.calls⟩
  else ⟨Except.error ("Invalid value of argument state: " ++ state), store, []⟩

end Seport

namespace Seport

theorem mk_data (s : String) : String.mk s.data = s := rfl

theorem splitOnceAux_of_not_mem (sep : Char) (l : List Char) (h : sep ∉ l) :
    ∀ acc, splitOnceAux sep l acc = [String.mk (acc.reverse ++ l)] := by
  induction l with
  | nil => intro acc; simp [splitOnceAux]
  | cons c cs ih =>
    intro acc
    have hc : ¬ c = sep := fun hc => h (hc ▸ List.mem_cons_self c cs)
    have hcs : sep ∉ cs := fun hm => h (List.mem_cons_of_mem _ hm)
    simp [splitOnceAux, hc, ih hcs]

theorem splitOnceAux_append (sep : Char) (l1 l2 : List Char) (h : sep ∉ l1) :
    ∀ acc, splitOnceAux sep (l1 ++ sep :: l2) acc =
      [String.mk (acc.reverse ++ l1), String.mk l2] := by
  induction l1 with
  | nil => intro acc; simp [splitOnceAux]
  | cons c cs ih =>
    intro acc
    have hc : ¬ c = sep := fun hc => h (hc ▸ List.mem_cons_self c cs)
    have hcs : sep ∉ cs := fun hm => h (List.mem_cons_of_mem _ hm)
    simp [splitOnceAux, hc, ih hcs]

theorem pySplitOnce_no_sep (s : String) (h : '-' ∉ s.data) :
    pySplitOnce s '-' = [s] := by
  unfold pySplitOnce
  rw [splitOnceAux_of_not_mem _ _ h]
  simp [mk_data]

theorem pySplitOnce_append (a b : String) (h : '-' ∉ a.data) :
    pySplitOnce (a ++ "-" ++ b) '-' = [a, b] := by
  unfold pySplitOnce
  have hd : (a ++ "-" ++ b).data = a.data ++ '-' :: b.data := by
    simp [String.data_append]
  rw [hd, splitOnceAux_append _ _ _ h]
  simp [mk_data]

theorem parsePorts_single (a : String) (x : Int) (ha : '-' ∉ a.data)
    (hx : pyInt a = some x) : parsePorts a = some (x, x) := by
  unfold parsePorts
  rw [pySplitOnce_no_sep a ha]
  simp [hx]

theorem parsePorts_range (a b : String) (x y : Int) (ha : '-' ∉ a.data)
    (hx : pyInt a = some x) (hy : pyInt b = some y) :
    parsePorts (a ++ "-" ++ b) = some (x, y) := by
  unfold parsePorts
  rw [pySplitOnce_append a b ha]
  simp [hx, hy]

theorem semanage_port_exists_eq (store : List PortRecord) (p pr : String)
    (lo hi : Int) (hp : parsePorts p = some (lo, hi)) :
    semanage_port_exists store p pr =
      some (decide (PortRecord.mk lo hi pr ∈ store)) := by
  unfold semanage_port_exists
  rw [hp]

theorem semanage_port_add_def (check : Bool) (store : List PortRecord)
    (p pr st : String) (rl : Bool) :
    semanage_port_add check store p pr st rl =
      semanage_port_add_race check store store p pr st rl := rfl

theorem semanage_port_del_def (check : Bool) (store : List PortRecord)
    (p pr : String) (rl : Bool) :
    semanage_port_del check store p pr rl =
      semanage_port_del_race check store store p pr rl := rfl

theorem storeAdd_eq (sw : List PortRecord) (p pr sr st : String)
    (lo hi : Int) (hp : parsePorts p = some (lo, hi)) :
    storeAdd sw p pr sr st =
      if ¬ (1 ≤ lo ∧ lo ≤ hi ∧ hi ≤ 65535) then
        Except.error "ValueError: invalid port range"
      else if PortRecord.mk lo hi pr ∈ sw then
        Except.error "ValueError: port already defined"
      else Except.ok (sw ++ [PortRecord.mk lo hi pr]) := by
  unfold storeAdd
  rw [hp]

theorem storeDel_eq (sw : List PortRecord) (p pr : String)
    (lo hi : Int) (hp : parsePorts p = some (lo, hi)) :
    storeDel sw p pr =
      if PortRecord.mk lo hi pr ∈ sw then
        Except.ok (sw.filter (fun r => decide ¬ (r = PortRecord.mk lo hi pr)))
      else Except.error "ValueError: port not defined" := by
  unfold storeDel
  rw [hp]

theorem storeAdd_ok_eq (sw : List PortRecord) (p pr sr st : String)
    (lo hi : Int) (s2 : List PortRecord) (hp : parsePorts p = some (lo, hi))
    (h : storeAdd sw p pr sr st = Except.ok s2) :
    s2 = sw ++ [PortRecord.mk lo hi pr] := by
  rw [storeAdd_eq sw p pr sr st lo hi hp] at h
  by_cases hb : 1 ≤ lo ∧ lo ≤ hi ∧ hi ≤ 65535
  · rw [if_neg (by simpa using hb)] at h
    by_cases hm : PortRecord.mk lo hi pr ∈ sw
    · rw [if_pos hm] at h
      exact absurd h (by simp)
    · rw [if_neg hm] at h
      simpa using h.symm
  · rw [if_pos (by simpa using hb)] at h
    exact absurd h (by simp)

theorem storeDel_absent_err (sw : List PortRecord) (p pr : String)
    (lo hi : Int) (hp : parsePorts p = some (lo, hi))
    (hm : PortRecord.mk lo hi pr ∉ sw) :
    storeDel sw p pr = Except.error "ValueError: port not defined" := by
  rw [storeDel_eq sw p pr lo hi hp, if_neg hm]

theorem add_race_eq (check : Bool) (sc sw : List PortRecord)
    (p pr st : String) (rl : Bool) (lo hi : Int)
    (hp : parsePorts p = some (lo, hi)) :
    semanage_port_add_race check sc sw p pr st rl =
      if (!decide (PortRecord.mk lo hi pr ∈ sc) && !check) = true then
        match storeAdd sw p pr "s0" st with
        | Except.error m =>
          ⟨Except.error m, sw,
            [StoreCall.getAll, StoreCall.setReload rl, StoreCall.add p pr "s0" st]⟩
        | Except.ok s2 =>
          ⟨Except.ok (!decide (PortRecord.mk lo hi pr ∈ sc)), s2,
            [StoreCall.getAll, StoreCall.setReload rl, StoreCall.add p pr "s0" st]⟩
      else
        ⟨Except.ok (!decide (PortRecord.mk lo hi pr ∈ sc)), sw,
          [StoreCall.getAll]⟩ := by
  unfold semanage_port_add_race semanage_port_exists
  rw [hp]

theorem del_race_eq (check : Bool) (sc sw : List PortRecord)
    (p pr : String) (rl : Bool) (lo hi : Int)
    (hp : parsePorts p = some (lo, hi)) :
    semanage_port_del_race check sc sw p pr rl =
      if (!decide (PortRecord.mk lo hi pr ∈ sc) && !check) = true then
        match storeDel sw p pr with
        | Except.error m =>
          ⟨Except.error m, sw,
            [StoreCall.getAll, StoreCall.setReload rl, StoreCall.delete p pr]⟩
        | Except.ok s2 =>
          ⟨Except.ok (!decide (PortRecord.mk lo hi pr ∈ sc)), s2,
            [StoreCall.getAll, StoreCall.setReload rl, StoreCall.delete p pr]⟩
      else
        ⟨Except.ok (!decide (PortRecord.mk lo hi pr ∈ sc)), sw,
          [StoreCall.getAll]⟩ := by
  unfold semanage_port_del_race semanage_port_exists
  rw [hp]

theorem add_race_parse_err (check : Bool) (sc sw : List PortRecord)
    (p pr st : String) (rl : Bool) (hp : parsePorts p = none) :
    semanage_port_add_race check sc sw p pr st rl =
      ⟨Except.error "ValueError: invalid port", sw, []⟩ := by
  unfold semanage_port_add_race semanage_port_exists
  rw [hp]

theorem del_race_parse_err (check : Bool) (sc sw : List PortRecord)
    (p pr : String) (rl : Bool) (hp : parsePorts p = none) :
    semanage_port_del_race check sc sw p pr rl =
      ⟨Except.error "ValueError: invalid port", sw, []⟩ := by
  unfold semanage_port_del_race semanage_port_exists
  rw [hp]

theorem add_race_exists_noop (check : Bool) (sc sw : List PortRecord)
    (p pr st : String) (rl : Bool) (lo hi : Int)
    (hp : parsePorts p = some (lo, hi)) (hm : PortRecord.mk lo hi pr ∈ sc) :
    semanage_port_add_race check sc sw p pr st rl =
      ⟨Except.ok false, sw, [StoreCall.getAll]⟩ := by
  have hd : decide (PortRecord.mk lo hi pr ∈ sc) = true := by simp [hm]
  rw [add_race_eq check sc sw p pr st rl lo hi hp, hd]
  simp

theorem del_race_exists_noop (check : Bool) (sc sw : List PortRecord)
    (p pr : String) (rl : Bool) (lo hi : Int)
    (hp : parsePorts p = some (lo, hi)) (hm : PortRecord.mk lo hi pr ∈ sc) :
    semanage_port_del_race check sc sw p pr rl =
      ⟨Except.ok false, sw, [StoreCall.getAll]⟩ := by
  have hd : decide (PortRecord.mk lo hi pr ∈ sc) = true := by simp [hm]
  rw [del_race_eq check sc sw p pr rl lo hi hp, hd]
  simp

theorem add_race_absent_ok (sc sw : List PortRecord) (p pr st : String)
    (rl : Bool) (lo hi : Int) (s2 : List PortRecord)
    (hp : parsePorts p = some (lo, hi)) (hm : PortRecord.mk lo hi pr ∉ sc)
    (hs : storeAdd sw p pr "s0" st = Except.ok s2) :
    semanage_port_add_race false sc sw p pr st rl =
      ⟨Except.ok true, s2,
        [StoreCall.getAll, StoreCall.setReload rl, StoreCall.add p pr "s0" st]⟩ := by
  have hd : decide (PortRecord.mk lo hi pr ∈ sc) = false := by simp [hm]
  rw [add_race_eq false sc sw p pr st rl lo hi hp, hd, hs]
  simp

theorem add_race_absent_err (sc sw : List PortRecord) (p pr st : String)
    (rl : Bool) (lo hi : Int) (m : String)
    (hp : parsePorts p = some (lo, hi)) (hm : PortRecord.mk lo hi pr ∉ sc)
    (hs : storeAdd sw p pr "s0" st = Except.error m) :
    semanage_port_add_race false sc sw p pr st rl =
      ⟨Except.error m, sw,
        [StoreCall.getAll, StoreCall.setReload rl, StoreCall.add p pr "s0" st]⟩ := by
  have hd : decide (PortRecord.mk lo hi pr ∈ sc) = false := by simp [hm]
  rw [add_race_eq false sc sw p pr st rl lo hi hp, hd, hs]
  simp

theorem add_race_check_absent (sc sw : List PortRecord) (p pr st : String)
    (rl : Bool) (lo hi : Int)
    (hp : parsePorts p = some (lo, hi)) (hm : PortRecord.mk lo hi pr ∉ sc) :
    semanage_port_add_race true sc sw p pr st rl =
      ⟨Except.ok true, sw, [StoreCall.getAll]⟩ := by
  have hd : decide (PortRecord.mk lo hi pr ∈ sc) = false := by simp [hm]
  rw [add_race_eq true sc sw p pr st rl lo hi hp, hd]
  simp

theorem del_race_absent_err (sc sw : List PortRecord) (p pr : String)
    (rl : Bool) (lo hi : Int)
    (hp : parsePorts p = some (lo, hi)) (hmc : PortRecord.mk lo hi pr ∉ sc)
    (hmw : PortRecord.mk lo hi pr ∉ sw) :
    semanage_port_del_race false sc sw p pr rl =
      ⟨Except.error "ValueError: port not defined", sw,
        [StoreCall.getAll, StoreCall.setReload rl, StoreCall.delete p pr]⟩ := by
  have hd : decide (PortRecord.mk lo hi pr ∈ sc) = false := by simp [hmc]
  rw [del_race_eq false sc sw p pr rl lo hi hp, hd,
    storeDel_absent_err sw p pr lo hi hp hmw]
  simp

theorem del_race_check_absent (sc sw : List PortRecord) (p pr : String)
    (rl : Bool) (lo hi : Int)
    (hp : parsePorts p = some (lo, hi)) (hm : PortRecord.mk lo hi pr ∉ sc) :
    semanage_port_del_race true sc sw p pr rl =
      ⟨Except.ok true, sw, [StoreCall.getAll]⟩ := by
  have hd : decide (PortRecord.mk lo hi pr ∈ sc) = false := by simp [hm]
  rw [del_race_eq true sc sw p pr rl lo hi hp, hd]
  simp

theorem add_ok_mem (store : List PortRecord) (p pr st : String) (rl : Bool)
    (c : Bool)
    (h : (semanage_port_add false store p pr st rl).outcome = Except.ok c) :
    ∃ lo hi, parsePorts p = some (lo, hi) ∧
      PortRecord.mk lo hi pr ∈ (semanage_port_add false store p pr st rl).store := by
  rw [semanage_port_add_def] at h ⊢
  cases hp : parsePorts p with
  | none =>
    rw [add_race_parse_err false store store p pr st rl hp] at h
    exact absurd h (by simp)
  | some q =>
    obtain ⟨lo, hi⟩ := q
    refine ⟨lo, hi, rfl, ?_⟩
    by_cases hm : PortRecord.mk lo hi pr ∈ store
    · rw [add_race_exists_noop false store store p pr st rl lo hi hp hm]
      exact hm
    · cases hs : storeAdd store p pr "s0" st with
      | error m =>
        rw [add_race_absent_err store store p pr st rl lo hi m hp hm hs] at h
        exact absurd h (by simp)
      | ok s2 =>
        rw [add_race_absent_ok store store p pr st rl lo hi s2 hp hm hs]
        rw [storeAdd_ok_eq store p pr "s0" st lo hi s2 hp hs]
        simp

theorem del_ok_cases (store : List PortRecord) (p pr : String) (rl : Bool)
    (c : Bool)
    (h : (semanage_port_del false store p pr rl).outcome = Except.ok c) :
    ∃ lo hi, parsePorts p = some (lo, hi) ∧
      PortRecord.mk lo hi pr ∈ store ∧
      (semanage_port_del false store p pr rl).store = store ∧ c = false := by
  rw [semanage_port_del_def] at h ⊢
  cases hp : parsePorts p with
  | none =>
    rw [del_race_parse_err false store store p pr rl hp] at h
    exact absurd h (by simp)
  | some q =>
    obtain ⟨lo, hi⟩ := q
    by_cases hm : PortRecord.mk lo hi pr ∈ store
    · rw [del_race_exists_noop false store store p pr rl lo hi hp hm] at h ⊢
      refine ⟨lo, hi, rfl, hm, rfl, ?_⟩
      simpa using h.symm
    · rw [del_race_absent_err store store p pr rl lo hi hp hm hm] at h
      exact absurd h (by simp)

theorem main_present_ok (check : Bool) (store : List PortRecord)
    (p pr st : String) (rl : Bool) (c : Bool)
    (h : (semanage_port_add check store p pr st rl).outcome = Except.ok c) :
    main check store p pr st "present" rl =
      ⟨Except.ok ⟨p, pr, st, "present", c⟩,
        (semanage_port_add check store p pr st rl).store,
        (semanage_port_add check store p pr st rl).calls⟩ := by
  have e : main check store p pr st "present" rl
      = (match (semanage_port_add check store p pr st rl).outcome with
         | Except.ok c =>
           ⟨Except.ok ⟨p, pr, st, "present", c⟩,
             (semanage_port_add check store p pr st rl).store,
             (semanage_port_add check store p pr st rl).calls⟩
         | Except.error m =>
           ⟨Except.error m,
             (semanage_port_add check store p pr st rl).store,
             (semanage_port_add check store p pr st rl).calls⟩) := rfl
  rw [e, h]

theorem main_present_err (check : Bool) (store : List PortRecord)
    (p pr st : String) (rl : Bool) (m : String)
    (h : (semanage_port_add check store p pr st rl).outcome = Except.error m) :
    main check store p pr st "present" rl =
      ⟨Except.error m,
        (semanage_port_add check store p pr st rl).store,
        (semanage_port_add check store p pr st rl).calls⟩ := by
  have e : main check store p pr st "present" rl
      = (match (semanage_port_add check store p pr st rl).outcome with
         | Except.ok c =>
           ⟨Except.ok ⟨p, pr, st, "present", c⟩,
             (semanage_port_add check store p pr st rl).store,
             (semanage_port_add check store p pr st rl).calls⟩
         | Except.error m =>
           ⟨Except.error m,
             (semanage_port_add check store p pr st rl).store,
             (semanage_port_add check store p pr st rl).calls⟩) := rfl
  rw [e, h]

theorem main_absent_ok (check : Bool) (store : List PortRecord)
    (p pr st : String) (rl : Bool) (c : Bool)
    (h : (semanage_port_del check store p pr rl).outcome = Except.ok c) :
    main check store p pr st "absent" rl =
      ⟨Except.ok ⟨p, pr, st, "absent", c⟩,
        (semanage_port_del check store p pr rl).store,
        (semanage_port_del check store p pr rl).calls⟩ := by
  have e : main check store p pr st "absent" rl
      = (match (semanage_port_del check store p pr rl).outcome with
         | Except.ok c =>
           ⟨Except.ok ⟨p, pr, st, "absent", c⟩,
             (semanage_port_del check store p pr rl).store,
             (semanage_port_del check store p pr rl).calls⟩
         | Except.error m =>
           ⟨Except.error m,
             (semanage_port_del check store p pr rl).store,
             (semanage_port_del check store p pr rl).calls⟩) := rfl
  rw [e, h]

theorem main_absent_err (check : Bool) (store : List PortRecord)
    (p pr st : String) (rl : Bool) (m : String)
    (h : (semanage_port_del check store p pr rl).outcome = Except.error m) :
    main check store p pr st "absent" rl =
      ⟨Except.error m,
        (semanage_port_del check store p pr rl).store,
        (semanage_port_del check store p pr rl).calls⟩ := by
  have e : main check store p pr st "absent" rl
      = (match (semanage_port_del check store p pr rl).outcome with
         | Except.ok c =>
           ⟨Except.ok ⟨p, pr, st, "absent", c⟩,
             (semanage_port_del check store p pr rl).store,
             (semanage_port_del check store p pr rl).calls⟩
         | Except.error m =>
           ⟨Except.error m,
             (semanage_port_del check store p pr rl).store,
             (semanage_port_del check store p pr rl).calls⟩) := rfl
  rw [e, h]

theorem main_other (check : Bool) (store : List PortRecord)
    (p pr st stt : String) (rl : Bool)
    (h1 : ¬ stt = "present") (h2 : ¬ stt = "absent") :
    main check store p pr st stt rl =
      ⟨Except.error ("Invalid value of argument state: " ++ stt), store, []⟩ := by
  unfold main
  rw [if_neg h1, if_neg h2]

theorem main_present_calls (check : Bool) (store : List PortRecord)
    (p pr st : String) (rl : Bool) :
    (main check store p pr st "present" rl).calls =
      (semanage_port_add check store p pr st rl).calls := by
  cases ho : (semanage_port_add check store p pr st rl).outcome with
  | ok c => rw [main_present_ok check store p pr st rl c ho]
  | error m => rw [main_present_err check store p pr st rl m ho]

theorem main_absent_calls (check : Bool) (store : List PortRecord)
    (p pr st : String) (rl : Bool) :
    (main check store p pr st "absent" rl).calls =
      (semanage_port_del check store p pr rl).calls := by
  cases ho : (semanage_port_del check store p pr rl).outcome with
  | ok c => rw [main_absent_ok check store p pr st rl c ho]
  | error m => rw [main_absent_err check store p pr st rl m ho]

theorem main_present_ok_inv (check : Bool) (store : List PortRecord)
    (p pr st : String) (rl : Bool) (res : ModuleResult)
    (h : (main check store p pr st "present" rl).outcome = Except.ok res) :
    (semanage_port_add check store p pr st rl).outcome = Except.ok res.changed ∧
    res = ⟨p, pr, st, "present", res.changed⟩ := by
  cases ho : (semanage_port_add check store p pr st rl).outcome with
  | error m =>
    rw [main_present_err check store p pr st rl m ho] at h
    exact absurd h (by simp)
  | ok c =>
    rw [main_present_ok check store p pr st rl c ho] at h
    simp only [Except.ok.injEq] at h
    rw [← h]
    exact ⟨rfl, rfl⟩

theorem main_absent_ok_inv (check : Bool) (store : List PortRecord)
    (p pr st : String) (rl : Bool) (res : ModuleResult)
    (h : (main check store p pr st "absent" rl).outcome = Except.ok res) :
    (semanage_port_del check store p pr rl).outcome = Except.ok res.changed ∧
    res = ⟨p, pr, st, "absent", res.changed⟩ := by
  cases ho : (semanage_port_del check store p pr rl).outcome with
  | error m =>
    rw [main_absent_err check store p pr st rl m ho] at h
    exact absurd h (by simp)
  | ok c =>
    rw [main_absent_ok check store p pr st rl c ho] at h
    simp only [Except.ok.injEq] at h
    rw [← h]
    exact ⟨rfl, rfl⟩

theorem add_race_calls (check : Bool) (sc sw : List PortRecord)
    (p pr st : String) (rl : Bool) :
    (semanage_port_add_race check sc sw p pr st rl).calls = [] ∨
    (semanage_port_add_race check sc sw p pr st rl).calls = [StoreCall.getAll] ∨
    (semanage_port_add_race check sc sw p pr st rl).calls =
      [StoreCall.getAll, StoreCall.setReload rl, StoreCall.add p pr "s0" st] := by
  cases hp : parsePorts p with
  | none =>
    rw [add_race_parse_err check sc sw p pr st rl hp]
    exact Or.inl rfl
  | some q =>
    obtain ⟨lo, hi⟩ := q
    rw [add_race_eq check sc sw p pr st rl lo hi hp]
    split
    · split
      · exact Or.inr (Or.inr rfl)
      · exact Or.inr (Or.inr rfl)
    · exact Or.inr (Or.inl rfl)

theorem del_race_calls (check : Bool) (sc sw : List PortRecord)
    (p pr : String) (rl : Bool) :
    (semanage_port_del_race check sc sw p pr rl).calls = [] ∨
    (semanage_port_del_race check sc sw p pr rl).calls = [StoreCall.getAll] ∨
    (semanage_port_del_race check sc sw p pr rl).calls =
      [StoreCall.getAll, StoreCall.setReload rl, StoreCall.delete p pr] := by
  cases hp : parsePorts p with
  | none =>
    rw [del_race_parse_err check sc sw p pr rl hp]
    exact Or.inl rfl
  | some q =>
    obtain ⟨lo, hi⟩ := q
    rw [del_race_eq check sc sw p pr rl lo hi hp]
    split
    · split
      · exact Or.inr (Or.inr rfl)
      · exact Or.inr (Or.inr rfl)
    · exact Or.inr (Or.inl rfl)

theorem add_race_check_calls (sc sw : List PortRecord)
    (p pr st : String) (rl : Bool) :
    (semanage_port_add_race true sc sw p pr st rl).calls = [] ∨
    (semanage_port_add_race true sc sw p pr st rl).calls = [StoreCall.getAll] := by
  cases hp : parsePorts p with
  | none =>
    rw [add_race_parse_err true sc sw p pr st rl hp]
    exact Or.inl rfl
  | some q =>
    obtain ⟨lo, hi⟩ := q
    by_cases hm : PortRecord.mk lo hi pr ∈ sc
    · rw [add_race_exists_noop true sc sw p pr st rl lo hi hp hm]
      exact Or.inr rfl
    · rw [add_race_check_absent sc sw p pr st rl lo hi hp hm]
      exact Or.inr rfl

theorem del_race_check_calls (sc sw : List PortRecord)
    (p pr : String) (rl : Bool) :
    (semanage_port_del_race true sc sw p pr rl).calls = [] ∨
    (semanage_port_del_race true sc sw p pr rl).calls = [StoreCall.getAll] := by
  cases hp : parsePorts p with
  | none =>
    rw [del_race_parse_err true sc sw p pr rl hp]
    exact Or.inl rfl
  | some q =>
    obtain ⟨lo, hi⟩ := q
    by_cases hm : PortRecord.mk lo hi pr ∈ sc
    · rw [del_race_exists_noop true sc sw p pr rl lo hi hp hm]
      exact Or.inr rfl
    · rw [del_race_check_absent sc sw p pr rl lo hi hp hm]
      exact Or.inr rfl

theorem add_race_ok_calls (check : Bool) (sc sw : List PortRecord)
    (p pr st : String) (rl : Bool) (c : Bool)
    (h : (semanage_port_add_race check sc sw p pr st rl).outcome = Except.ok c) :
    StoreCall.getAll ∈ (semanage_port_add_race check sc sw p pr st rl).calls := by
  cases hp : parsePorts p with
  | none =>
    rw [add_race_parse_err check sc sw p pr st rl hp] at h
    exact absurd h (by simp)
  | some q =>
    obtain ⟨lo, hi⟩ := q
    rw [add_race_eq check sc sw p pr st rl lo hi hp]
    split
    · split
      · exact List.mem_cons_self _ _
      · exact List.mem_cons_self _ _
    · exact List.mem_cons_self _ _

theorem del_race_ok_calls (check : Bool) (sc sw : List PortRecord)
    (p pr : String) (rl : Bool) (c : Bool)
    (h : (semanage_port_del_race check sc sw p pr rl).outcome = Except.ok c) :
    StoreCall.getAll ∈ (semanage_port_del_race check sc sw p pr rl).calls := by
  cases hp : parsePorts p with
  | none =>
    rw [del_race_parse_err check sc sw p pr rl hp] at h
    exact absurd h (by simp)
  | some q =>
    obtain ⟨lo, hi⟩ := q
    rw [del_race_eq check sc sw p pr rl lo hi hp]
    split
    · split
      · exact List.mem_cons_self _ _
      · exact List.mem_cons_self _ _
    · exact List.mem_cons_self _ _

theorem add_race_ok_false_calls (check : Bool) (sc sw : List PortRecord)
    (p pr st : String) (rl : Bool)
    (h : (semanage_port_add_race check sc sw p pr st rl).outcome = Except.ok false) :
    (semanage_port_add_race check sc sw p pr st rl).calls = [StoreCall.getAll] := by
  cases hp : parsePorts p with
  | none =>
    rw [add_race_parse_err check sc sw p pr st rl hp] at h
    exact absurd h (by simp)
  | some q =>
    obtain ⟨lo, hi⟩ := q
    by_cases hm : PortRecord.mk lo hi pr ∈ sc
    · rw [add_race_exists_noop check sc sw p pr st rl lo hi hp hm]
    · exfalso
      have hd : decide (PortRecord.mk lo hi pr ∈ sc) = false := by simp [hm]
      rw [add_race_eq check sc sw p pr st rl lo hi hp, hd] at h
      cases check with
      | true => simp at h
      | false =>
        cases hs : storeAdd sw p pr "s0" st with
        | error m => rw [hs] at h; simp at h
        | ok s2 => rw [hs] at h; simp at h

theorem del_race_ok_false_calls (check : Bool) (sc sw : List PortRecord)
    (p pr : String) (rl : Bool)
    (h : (semanage_port_del_race check sc sw p pr rl).outcome = Except.ok false) :
    (semanage_port_del_race check sc sw p pr rl).calls = [StoreCall.getAll] := by
  cases hp : parsePorts p with
  | none =>
    rw [del_race_parse_err check sc sw p pr rl hp] at h
    exact absurd h (by simp)
  | some q =>
    obtain ⟨lo, hi⟩ := q
    by_cases hm : PortRecord.mk lo hi pr ∈ sc
    · rw [del_race_exists_noop check sc sw p pr rl lo hi hp hm]
    · exfalso
      have hd : decide (PortRecord.mk lo hi pr ∈ sc) = false := by simp [hm]
      rw [del_race_eq check sc sw p pr rl lo hi hp, hd] at h
      cases check with
      | true => simp at h
      | false =>
        cases hs : storeDel sw p pr with
        | error m => rw [hs] at h; simp at h
        | ok s2 => rw [hs] at h; simp at h

theorem main_calls_cases (check : Bool) (store : List PortRecord)
    (p pr st stt : String) (rl : Bool) :
    (main check store p pr st stt rl).calls = [] ∨
    (main check store p pr st stt rl).calls = [StoreCall.getAll] ∨
    (main check store p pr st stt rl).calls =
      [StoreCall.getAll, StoreCall.setReload rl, StoreCall.add p pr "s0" st] ∨
    (main check store p pr st stt rl).calls =
      [StoreCall.getAll, StoreCall.setReload rl, StoreCall.delete p pr] := by
  by_cases h1 : stt = "present"
  · subst h1
    rw [main_present_calls check store p pr st rl, semanage_port_add_def]
    rcases add_race_calls check store store p pr st rl with h | h | h
    · exact Or.inl h
    · exact Or.inr (Or.inl h)
    · exact Or.inr (Or.inr (Or.inl h))
  · by_cases h2 : stt = "absent"
    · subst h2
      rw [main_absent_calls check store p pr st rl, semanage_port_del_def]
      rcases del_race_calls check store store p pr rl with h | h | h
      · exact Or.inl h
      · exact Or.inr (Or.inl h)
      · exact Or.inr (Or.inr (Or.inr h))
    · rw [main_other check store p pr st stt rl h1 h2]
      exact Or.inl rfl

theorem main_check_calls (store : List PortRecord)
    (p pr st stt : String) (rl : Bool) :
    (main true store p pr st stt rl).calls = [] ∨
    (main true store p pr st stt rl).calls = [StoreCall.getAll] := by
  by_cases h1 : stt = "present"
  · subst h1
    rw [main_present_calls true store p pr st rl, semanage_port_add_def]
    exact add_race_check_calls store store p pr st rl
  · by_cases h2 : stt = "absent"
    · subst h2
      rw [main_absent_calls true store p pr st rl, semanage_port_del_def]
      exact del_race_check_calls store store p pr rl
    · rw [main_other true store p pr st stt rl h1 h2]
      exact Or.inl rfl

/-- Claim C1 (code bug): `semanage_port_del` computes
`change = not semanage_port_exists(...)` — the add-path logic left
unchanged — so with the binding `(10000,10100,tcp)` present in the store a
removal run issues no `delete` at all and reports `changed = false`,
against the claim, the spec and the function's own docstring ("Delete
SELinux port type definition from the policy ... True if the policy was
changed"); conversely with the binding absent it calls `seport.delete`,
which fails. -/
theorem C1_delete_logic_inverted :
    semanage_port_del false [PortRecord.mk 10000 10100 "tcp"] "10000-10100" "tcp" true
      = ⟨Except.ok false, [PortRecord.mk 10000 10100 "tcp"], [StoreCall.getAll]⟩ ∧
    (main false [PortRecord.mk 10000 10100 "tcp"] "10000-10100" "tcp"
        "memcache_port_t" "absent" true).outcome
      = Except.ok ⟨"10000-10100", "tcp", "memcache_port_t", "absent", false⟩ ∧
    (semanage_port_del false [] "10000-10100" "tcp" true).outcome
      = Except.error "ValueError: port not defined" := by
  refine ⟨by decide, by decide, by decide⟩

/-- Claim C2 is false as stated: in check mode (a desired state with
`dryRun = true`) the store is never mutated, so a second identical run
predicts `changed = true` again — here `state=present`, port `8080` on an
empty store returns `changed = true` on both of two successive runs. -/
theorem C2_check_mode_counterexample :
    (main true [] "8080" "tcp" "http_port_t" "present" true).outcome
      = Except.ok ⟨"8080", "tcp", "http_port_t", "present", true⟩ ∧
    (main true [] "8080" "tcp" "http_port_t" "present" true).store = [] ∧
    (main true ((main true [] "8080" "tcp" "http_port_t" "present" true).store)
        "8080" "tcp" "http_port_t" "present" true).outcome
      = Except.ok ⟨"8080", "tcp", "http_port_t", "present", true⟩ := by
  refine ⟨by decide, by decide, by decide⟩

/-- Claim C2 (amended): with check mode off, if two successive runs of the
module against the same store both succeed (no `fail_json`), the second
reports `changed = false`, so `changed = true` occurs at most on the first;
in check mode the store is untouched and the prediction can repeat `true`
(see the counterexample). -/
theorem C2_idempotence_amended (store : List PortRecord)
    (p pr st stt : String) (rl : Bool) (res1 res2 : ModuleResult)
    (h1 : (main false store p pr st stt rl).outcome = Except.ok res1)
    (h2 : (main false (main false store p pr st stt rl).store p pr st stt rl).outcome
      = Except.ok res2) :
    res2.changed = false := by
  by_cases hs1 : stt = "present"
  · subst hs1
    obtain ⟨ho1, -⟩ := main_present_ok_inv false store p pr st rl res1 h1
    obtain ⟨lo, hi, hp, hmem⟩ := add_ok_mem store p pr st rl res1.changed ho1
    have hstore : (main false store p pr st "present" rl).store
        = (semanage_port_add false store p pr st rl).store := by
      rw [main_present_ok false store p pr st rl res1.changed ho1]
    rw [hstore] at h2
    obtain ⟨ho2, -⟩ := main_present_ok_inv false _ p pr st rl res2 h2
    have hnoop : (semanage_port_add false
        ((semanage_port_add false store p pr st rl).store) p pr st rl).outcome
        = Except.ok false := by
      rw [semanage_port_add_def,
        add_race_exists_noop false _ _ p pr st rl lo hi hp hmem]
    rw [hnoop] at ho2
    simpa using ho2.symm
  · by_cases hs2 : stt = "absent"
    · subst hs2
      obtain ⟨ho1, -⟩ := main_absent_ok_inv false store p pr st rl res1 h1
      obtain ⟨lo, hi, hp, hmem, hstore_eq, -⟩ :=
        del_ok_cases store p pr rl res1.changed ho1
      have hstore : (main false store p pr st "absent" rl).store = store := by
        rw [main_absent_ok false store p pr st rl res1.changed ho1]
        exact hstore_eq
      rw [hstore] at h2
      obtain ⟨ho2, -⟩ := main_absent_ok_inv false store p pr st rl res2 h2
      have hnoop : (semanage_port_del false store p pr rl).outcome
          = Except.ok false := by
        rw [semanage_port_del_def,
          del_race_exists_noop false store store p pr rl lo hi hp hmem]
      rw [hnoop] at ho2
      simpa using ho2.symm
    · rw [main_other false store p pr st stt rl hs1 hs2] at h1
      exact absurd h1 (by simp)

theorem C2_idempotence_witness :
    (⟨"8080", "tcp", "http_port_t", "present", false⟩ : ModuleResult).changed
      = false :=
  C2_idempotence_amended [] "8080" "tcp" "http_port_t" "present" true
    ⟨"8080", "tcp", "http_port_t", "present", true⟩
    ⟨"8080", "tcp", "http_port_t", "present", false⟩ (by decide) (by decide)

/-- Claim C3 is false as stated: when the existence pre-check misses the
binding (empty snapshot at `get_all` time) and a racing actor inserts
`(8888,8888,tcp)` before the write, the store's `add` fails with "already
defined" and `semanage_port_add` reaches `module.fail_json` with that
message — a fatal failure, not a successful `changed = false` outcome. -/
theorem C3_already_defined_counterexample :
    (semanage_port_add_race false [] [PortRecord.mk 8888 8888 "tcp"]
        "8888" "tcp" "http_port_t" true).outcome
      = Except.error "ValueError: port already defined" := by
  decide

/-- Claim C3 (amended): when the pre-check reports the binding absent and
the store's `add` then fails — in particular with "already defined" after
a racing insert — the module reports that failure fatally via `fail_json`
(there is no classification of "already defined" as success); a
`changed = false` success arises only when the pre-check finds the binding
already present. -/
theorem C3_add_failure_fatal (sc sw : List PortRecord) (p pr st : String)
    (rl : Bool) (lo hi : Int) (m : String)
    (hp : parsePorts p = some (lo, hi)) (hm : PortRecord.mk lo hi pr ∉ sc)
    (hs : storeAdd sw p pr "s0" st = Except.error m) :
    (semanage_port_add_race false sc sw p pr st rl).outcome = Except.error m := by
  rw [add_race_absent_err sc sw p pr st rl lo hi m hp hm hs]

theorem C3_add_failure_fatal_witness :
    (semanage_port_add_race false [] [PortRecord.mk 8888 8888 "tcp"]
        "8888" "tcp" "ssh_port_t" true).outcome
      = Except.error "ValueError: port already defined" :=
  C3_add_failure_fatal [] [PortRecord.mk 8888 8888 "tcp"] "8888" "tcp"
    "ssh_port_t" true 8888 8888 "ValueError: port already defined"
    (by decide) (by decide) (by decide)

/-- Claim C4 is false as stated: `parse("70000")` yields no validation
failure — the record `(70000, 70000)` is produced — and the reconciliation
proceeds to issue the mutating `add` call to the store before any
rejection; likewise `parse("10100-10000")` yields `(10100, 10000)` with no
`InvertedRange` failure. -/
theorem C4_validation_counterexample :
    parsePorts "70000" = some (70000, 70000) ∧
    parsePorts "10100-10000" = some (10100, 10000) ∧
    (semanage_port_add false [] "70000" "tcp" "http_port_t" true).calls
      = [StoreCall.getAll, StoreCall.setReload true,
          StoreCall.add "70000" "tcp" "s0" "http_port_t"] := by
  refine ⟨by decide, by decide, by decide⟩

/-- Claim C4 (amended): the parsing layer rejects, before `get_all` and
before any store mutation, exactly the specs with a component that is not
an integer — such as `"80-90-100"`, split by `split('-', 1)` into `"80"`
and the non-numeric `"90-100"` — failing the run with no store call at
all.  Out-of-bounds components (`"70000"`) and inverted ranges
(`"10100-10000"`) pass parsing; the mutation is attempted and their
rejection is left to the external store. -/
theorem C4_nonnumeric_only_validation :
    parsePorts "80-90-100" = none ∧
    main false [] "80-90-100" "tcp" "http_port_t" "present" true
      = ⟨Except.error "ValueError: invalid port", [], []⟩ ∧
    parsePorts "70000" = some (70000, 70000) ∧
    parsePorts "10100-10000" = some (10100, 10000) ∧
    (semanage_port_add false [] "70000" "tcp" "http_port_t" true).outcome
      = Except.error "ValueError: invalid port range" := by
  refine ⟨by decide, by decide, by decide, by decide, by decide⟩

/-- Claim C5: in check mode no mutating store call is ever issued,
whatever the predicted `changed`, while any run that completes with a
prediction still performed the read-only `get_all` query. -/
theorem C5_dry_run_never_mutates (store : List PortRecord)
    (p pr st stt : String) (rl : Bool) :
    (∀ call ∈ (main true store p pr st stt rl).calls, isMutation call = false) ∧
    (∀ res : ModuleResult,
      (main true store p pr st stt rl).outcome = Except.ok res →
      StoreCall.getAll ∈ (main true store p pr st stt rl).calls) := by
  constructor
  · intro call hc
    rcases main_check_calls store p pr st stt rl with h | h
    · rw [h] at hc
      simp at hc
    · rw [h] at hc
      simp at hc
      subst hc
      rfl
  · intro res hres
    by_cases h1 : stt = "present"
    · subst h1
      obtain ⟨ho, -⟩ := main_present_ok_inv true store p pr st rl res hres
      rw [main_present_calls true store p pr st rl, semanage_port_add_def]
      exact add_race_ok_calls true store store p pr st rl res.changed ho
    · by_cases h2 : stt = "absent"
      · subst h2
        obtain ⟨ho, -⟩ := main_absent_ok_inv true store p pr st rl res hres
        rw [main_absent_calls true store p pr st rl, semanage_port_del_def]
        exact del_race_ok_calls true store store p pr rl res.changed ho
      · rw [main_other true store p pr st stt rl h1 h2] at hres
        exact absurd hres (by simp)

theorem C5_dry_run_witness :
    isMutation StoreCall.getAll = false ∧
    StoreCall.getAll ∈ (main true [] "8080" "tcp" "http_port_t" "present" true).calls :=
  ⟨(C5_dry_run_never_mutates [] "8080" "tcp" "http_port_t" "present" true).1
      StoreCall.getAll (by decide),
    (C5_dry_run_never_mutates [] "8080" "tcp" "http_port_t" "present" true).2
      ⟨"8080", "tcp", "http_port_t", "present", true⟩ (by decide)⟩

/-- Claim C6: a port spec with no `-` separator parses to a range with
both bounds equal to its sole numeric value, and a two-component spec
`A-B` parses to `(A, B)`. -/
theorem C6_parse_normalization (a b : String) (x y : Int)
    (ha : '-' ∉ a.data) (hx : pyInt a = some x) (hy : pyInt b = some y) :
    parsePorts a = some (x, x) ∧ parsePorts (a ++ "-" ++ b) = some (x, y) :=
  ⟨parsePorts_single a x ha hx, parsePorts_range a b x y ha hx hy⟩

theorem C6_parse_normalization_witness :
    parsePorts "8080" = some (8080, 8080) ∧
    parsePorts ("10000" ++ "-" ++ "10100") = some (10000, 10100) :=
  ⟨(C6_parse_normalization "8080" "1" 8080 1
      (by decide) (by decide) (by decide)).1,
    (C6_parse_normalization "10000" "10100" 10000 10100
      (by decide) (by decide) (by decide)).2⟩

/-- Claim C7: the existence check is exact structural equality on the
`(low, high, protocol)` triple — any store containing `(8080,8080,tcp)`
but not `(8080,8090,tcp)` reports the key `(8080,8090,tcp)` absent;
overlap and containment never match. -/
theorem C7_exact_match (store : List PortRecord)
    (_hin : PortRecord.mk 8080 8080 "tcp" ∈ store)
    (hout : PortRecord.mk 8080 8090 "tcp" ∉ store) :
    semanage_port_exists store "8080-8090" "tcp" = some false := by
  rw [semanage_port_exists_eq store "8080-8090" "tcp" 8080 8090 (by decide)]
  simp [hout]

theorem C7_exact_match_witness :
    semanage_port_exists [PortRecord.mk 8080 8080 "tcp"] "8080-8090" "tcp"
      = some false :=
  C7_exact_match [PortRecord.mk 8080 8080 "tcp"] (by decide) (by decide)

/-- Claim C8: every module run issues at most one mutating store call
(`add` or `delete`); a failed mutation is never retried. -/
theorem C8_at_most_one_mutation (check : Bool) (store : List PortRecord)
    (p pr st stt : String) (rl : Bool) :
    ((main check store p pr st stt rl).calls.filter isMutation).length ≤ 1 := by
  rcases main_calls_cases check store p pr st stt rl with h | h | h | h <;>
    rw [h] <;> simp [isMutation]

/-- Claim C9: `set_reload` is applied only immediately before a mutation —
in check mode, and in any run whose successful outcome is a no-op
(`changed = false`), no `setReload` call is issued to the store. -/
theorem C9_no_reload_without_mutation (check : Bool) (store : List PortRecord)
    (p pr st stt : String) (rl b : Bool) (res : ModuleResult)
    (h : check = true ∨
      ((main check store p pr st stt rl).outcome = Except.ok res ∧
        res.changed = false)) :
    StoreCall.setReload b ∉ (main check store p pr st stt rl).calls := by
  rcases h with hc | ⟨hok, hch⟩
  · subst hc
    rcases main_check_calls store p pr st stt rl with h | h <;> rw [h] <;> simp
  · by_cases h1 : stt = "present"
    · subst h1
      obtain ⟨ho, -⟩ := main_present_ok_inv check store p pr st rl res hok
      rw [hch] at ho
      rw [main_present_calls check store p pr st rl, semanage_port_add_def,
        add_race_ok_false_calls check store store p pr st rl ho]
      simp
    · by_cases h2 : stt = "absent"
      · subst h2
        obtain ⟨ho, -⟩ := main_absent_ok_inv check store p pr st rl res hok
        rw [hch] at ho
        rw [main_absent_calls check store p pr st rl, semanage_port_del_def,
          del_race_ok_false_calls check store store p pr rl ho]
        simp
      · rw [main_other check store p pr st stt rl h1 h2]
        simp

theorem C9_no_reload_witness :
    StoreCall.setReload true ∉
      (main true [] "8080" "tcp" "http_port_t" "present" true).calls :=
  C9_no_reload_without_mutation true [] "8080" "tcp" "http_port_t" "present"
    true true ⟨"8080", "tcp", "http_port_t", "present", true⟩ (Or.inl rfl)

/-- Claim C10: every successful run's `exit_json` result echoes the input
`port`, `proto`, `setype` and `state` unchanged alongside `changed`. -/
theorem C10_result_echoes_params (check : Bool) (store : List PortRecord)
    (p pr st stt : String) (rl : Bool) (res : ModuleResult)
    (h : (main check store p pr st stt rl).outcome = Except.ok res) :
    res.port = p ∧ res.proto = pr ∧ res.setype = st ∧ res.state = stt := by
  by_cases h1 : stt = "present"
  · subst h1
    obtain ⟨-, hres⟩ := main_present_ok_inv check store p pr st rl res h
    rw [hres]
    exact ⟨rfl, rfl, rfl, rfl⟩
  · by_cases h2 : stt = "absent"
    · subst h2
      obtain ⟨-, hres⟩ := main_absent_ok_inv check store p pr st rl res h
      rw [hres]
      exact ⟨rfl, rfl, rfl, rfl⟩
    · rw [main_other check store p pr st stt rl h1 h2] at h
      exact absurd h (by simp)

theorem C10_result_echoes_witness :
    (⟨"8080", "tcp", "http_port_t", "present", true⟩ : ModuleResult).port = "8080" ∧
    (⟨"8080", "tcp", "http_port_t", "present", true⟩ : ModuleResult).proto = "tcp" ∧
    (⟨"8080", "tcp", "http_port_t", "present", true⟩ : ModuleResult).setype
      = "http_port_t" ∧
    (⟨"8080", "tcp", "http_port_t", "present", true⟩ : ModuleResult).state
      = "present" :=
  C10_result_echoes_params false [] "8080" "tcp" "http_port_t" "present" true
    ⟨"8080", "tcp", "http_port_t", "present", true⟩ (by decide)

end Seport
